import Mathlib

/-!
Verification model of the cycling power optimizer core (app.js): the
physics engine (powerRequired, speedAtPower, calculateHeadwind), the
three-pass power allocator (PowerOptimizer.optimize) and the segment
smoothing pass (GPXParser.smoothSegments), shallowly embedded over the
real numbers. JavaScript floating point arithmetic is modelled by exact
real arithmetic; Math.pow with a fractional exponent is modelled by the
real power function, and the JavaScript remainder operator by jsMod
below (truncating division, as in JavaScript).
-/

-- Constants from the CONSTANTS object in app.js.

def GRAVITY : ℝ := 9.81

def AIR_DENSITY : ℝ := 1.225

def DRIVETRAIN_LOSS : ℝ := 0.03

def MIN_POWER : ℝ := 50

def MAX_POWER_FACTOR : ℝ := 1.20

def SEGMENT_LENGTH : ℝ := 100

-- Data model.

structure Segment where
  startLat : ℝ
  startLon : ℝ
  endLat : ℝ
  endLon : ℝ
  distance : ℝ
  cumulativeDistance : ℝ
  elevation : ℝ
  gradient : ℝ
  bearing : ℝ

structure OptSegment extends Segment where
  headwind : ℝ
  optimizedPower : ℝ
  wBalance : ℝ
  speed : ℝ
  time : ℝ

structure BikeParams where
  totalMass : ℝ
  cda : ℝ
  crr : ℝ

structure Params where
  ftp : ℝ
  wprime : ℝ
  windSpeed : ℝ
  windDirection : ℝ
  totalMass : ℝ
  cda : ℝ
  crr : ℝ
  targetIntensity : ℝ

-- JavaScript helpers: truncation toward zero and the remainder operator.

noncomputable def jsTrunc (x : ℝ) : ℝ :=
  if 0 ≤ x then (⌊x⌋ : ℝ) else (⌈x⌉ : ℝ)

noncomputable def jsMod (a b : ℝ) : ℝ := a - b * jsTrunc (a / b)

-- PhysicsEngine.powerRequired.

noncomputable def powerRequired (speed gradient headwind : ℝ) (p : BikeParams) : ℝ :=
  let airSpeed := speed + headwind
  let paero := 0.5 * AIR_DENSITY * p.cda * airSpeed ^ 2 * speed
  let pgravity := p.totalMass * GRAVITY * gradient * speed
  let cosGradient := Real.cos (Real.arctan gradient)
  let prolling := p.crr * p.totalMass * GRAVITY * cosGradient * speed
  max MIN_POWER ((paero + pgravity + prolling) / (1 - DRIVETRAIN_LOSS))

/-- State of the Newton iteration of PhysicsEngine.speedAtPower: the current
speed estimate, plus two observers of the run that the source comments speak
about: whether the 1 to 30 clamp ever changed the estimate, and whether the
loop stopped through the power residual test. -/
structure IterState where
  speed : ℝ
  clampHit : Bool
  resExit : Bool

/-- One fuel-counted transcription of the for loop of speedAtPower: up to n
more iterations, each either breaking on a small residual, breaking on a
small numerical derivative, or performing the clamped Newton update. -/
noncomputable def speedIter (power gradient headwind : ℝ) (p : BikeParams) :
    ℕ → IterState → IterState
  | 0, st => st
  | n + 1, st =>
    let currentPower := powerRequired st.speed gradient headwind p
    let err := currentPower - power
    if |err| < 0.1 then { st with resExit := true }
    else
      let dPower := powerRequired (st.speed + 0.1) gradient headwind p - currentPower
      let derivative := dPower / 0.1
      if |derivative| < 0.001 then st
      else
        let s1 := st.speed - err / derivative
        let s2 := max 1 (min s1 30)
        speedIter power gradient headwind p n
          { speed := s2,
            clampHit := if s2 = s1 then st.clampHit else true,
            resExit := st.resExit }

/-- The initial guess of speedAtPower: the flat-ground closed-form
aerodynamic speed, a cube root, not clamped. -/
noncomputable def seedSpeed (power : ℝ) (p : BikeParams) : ℝ :=
  (power / (0.5 * AIR_DENSITY * p.cda)) ^ ((1 : ℝ) / 3)

noncomputable def speedAtPowerRun (power gradient headwind : ℝ) (p : BikeParams) : IterState :=
  speedIter power gradient headwind p 20 ⟨seedSpeed power p, false, false⟩

/-- PhysicsEngine.speedAtPower: the speed estimate returned by the run. -/
noncomputable def speedAtPower (power gradient headwind : ℝ) (p : BikeParams) : ℝ :=
  (speedAtPowerRun power gradient headwind p).speed

-- PhysicsEngine.calculateHeadwind.

noncomputable def calculateHeadwind (windSpeed windDirection bearing : ℝ) : ℝ :=
  let windTo := jsMod (windDirection + 180) 360
  let angleRad := (windTo - bearing) * Real.pi / 180
  let component := -windSpeed * Real.cos angleRad
  component

-- PowerOptimizer.optimize, split into its three passes.

noncomputable def basePowerOf (p : Params) : ℝ := p.ftp * (p.targetIntensity / 100)

def bikeOf (p : Params) : BikeParams := ⟨p.totalMass, p.cda, p.crr⟩

/-- The aggressiveness factor computed in the first pass of optimize:
Math.max(0, (targetIntensity - 65) / 35). -/
noncomputable def aggressiveness (targetIntensity : ℝ) : ℝ :=
  max 0 ((targetIntensity - 65) / 35)

/-- First pass of optimize for one segment: gradient-banded target power,
wind adjustment, then clamping to the valid range. -/
noncomputable def pass1Seg (p : Params) (seg : Segment) : OptSegment :=
  let basePower := basePowerOf p
  let maxPower := p.ftp * MAX_POWER_FACTOR
  let minPower := basePower * 0.5
  let headwind := calculateHeadwind (p.windSpeed / 3.6) p.windDirection seg.bearing
  let agg := aggressiveness p.targetIntensity
  let gradientPercent := seg.gradient * 100
  let targetPower :=
    if gradientPercent > 2.0 then
      let maxBoost := 0.10 + agg * 0.20
      let powerBoost := min ((gradientPercent - 2) * 0.10) maxBoost * agg
      max basePower (p.ftp * (1 + powerBoost))
    else if gradientPercent > 0.5 then
      let rampFactor := (gradientPercent - 0.5) / 1.5
      basePower + rampFactor * (p.ftp - basePower) * agg
    else if gradientPercent < -2.0 then
      basePower * (1 - min (|gradientPercent| * 0.12) 0.40)
    else if gradientPercent < 0 then
      basePower * (1 - |gradientPercent| * 0.05)
    else basePower
  let adjusted :=
    if headwind < 0 then targetPower * (1 + min (|headwind| * 0.02) 0.10)
    else if headwind > 0 then targetPower * (1 - min (headwind * 0.015) 0.08)
    else targetPower
  { toSegment := seg
    headwind := headwind
    optimizedPower := max minPower (min maxPower adjusted)
    wBalance := 0
    speed := 0
    time := 0 }

/-- Second pass of optimize for one segment: given the carried wBalance,
either deplete the reserve, override the power down to basePower when the
depletion would cross the 15 percent floor, or recover; returns the new
wBalance and the updated segment. -/
noncomputable def pass2Step (p : Params) (wBalance : ℝ) (seg : OptSegment) : ℝ × OptSegment :=
  let speed := speedAtPower seg.optimizedPower seg.gradient seg.headwind (bikeOf p)
  let segmentTime := seg.distance / speed
  if seg.optimizedPower > p.ftp then
    let wCost := (seg.optimizedPower - p.ftp) * segmentTime
    if wBalance - wCost < p.wprime * 0.15 then
      (wBalance, { seg with optimizedPower := basePowerOf p, wBalance := wBalance })
    else
      (wBalance - wCost, { seg with wBalance := wBalance - wCost })
  else
    let wRecovery := (p.ftp - seg.optimizedPower) * segmentTime * 0.30
    let wb := min p.wprime (wBalance + wRecovery)
    (wb, { seg with wBalance := wb })

/-- Second pass of optimize over the segment list, carrying the pair of
wBalance and minWBalance in route order. -/
noncomputable def pass2 (p : Params) : ℝ × ℝ → List OptSegment → (ℝ × ℝ) × List OptSegment
  | st, [] => (st, [])
  | (wb, minW), seg :: rest =>
    let step := pass2Step p wb seg
    let next := pass2 p (step.1, min minW step.1) rest
    (next.1, step.2 :: next.2)

/-- Third pass of optimize for one segment: recompute speed and time at the
final power. -/
noncomputable def pass3Seg (p : Params) (seg : OptSegment) : OptSegment :=
  let speed := speedAtPower seg.optimizedPower seg.gradient seg.headwind (bikeOf p)
  { seg with speed := speed, time := seg.distance / speed }

structure Metrics where
  totalTime : ℝ
  avgPower : ℝ
  normPower : ℝ
  intensityFactor : ℝ
  tss : ℝ
  avgSpeed : ℝ
  minWBalance : ℝ
  wprimePercent : ℝ

structure OptResult where
  segments : List OptSegment
  metrics : Metrics

/-- PowerOptimizer.optimize: the three passes followed by the aggregate
metrics. The source performs no input validation: an empty segment list
flows through all three passes and the metric divisions. -/
noncomputable def optimize (segments : List Segment) (p : Params) : OptResult :=
  let afterFirst := segments.map (pass1Seg p)
  let second := pass2 p (p.wprime, p.wprime) afterFirst
  let minWBalance := second.1.2
  let results := second.2.map (pass3Seg p)
  let totalTime := (results.map (·.time)).sum
  let powerSum := (results.map (fun s => s.optimizedPower * s.time)).sum
  let power4Sum := (results.map (fun s => s.optimizedPower ^ (4 : ℕ) * s.time)).sum
  let avgPower := powerSum / totalTime
  let normPower := (power4Sum / totalTime) ^ ((0.25 : ℝ))
  let intensityFactor := normPower / p.ftp
  let tss := (totalTime / 3600) * intensityFactor * intensityFactor * 100
  let totalDistance := segments.getLast?.elim 0 (·.cumulativeDistance)
  let avgSpeed := (totalDistance / 1000) / (totalTime / 3600)
  { segments := results
    metrics :=
      { totalTime := totalTime
        avgPower := avgPower
        normPower := normPower
        intensityFactor := intensityFactor
        tss := tss
        avgSpeed := avgSpeed
        minWBalance := minWBalance
        wprimePercent := minWBalance / p.wprime * 100 } }

-- GPXParser.smoothSegments.

/-- JavaScript Math.atan2. -/
noncomputable def jsAtan2 (y x : ℝ) : ℝ :=
  if 0 < x then Real.arctan (y / x)
  else if x < 0 then
    (if 0 ≤ y then Real.arctan (y / x) + Real.pi else Real.arctan (y / x) - Real.pi)
  else
    (if 0 < y then Real.pi / 2 else if y < 0 then -(Real.pi / 2) else 0)

structure SmoothAcc where
  distance : ℝ
  elevationStart : ℝ
  elevationSum : ℝ
  bearingX : ℝ
  bearingY : ℝ
  startLat : ℝ
  startLon : ℝ
  endLat : ℝ
  endLon : ℝ
  cumulativeDistance : ℝ

noncomputable def accumulate (acc : SmoothAcc) (seg : Segment) : SmoothAcc :=
  { acc with
      distance := acc.distance + seg.distance
      elevationSum := acc.elevationSum + seg.elevation * seg.distance
      bearingX := acc.bearingX + Real.cos (seg.bearing * Real.pi / 180) * seg.distance
      bearingY := acc.bearingY + Real.sin (seg.bearing * Real.pi / 180) * seg.distance
      endLat := seg.endLat
      endLon := seg.endLon
      cumulativeDistance := seg.cumulativeDistance }

noncomputable def flushAcc (acc : SmoothAcc) : Segment :=
  let avgElevation := acc.elevationSum / acc.distance
  { startLat := acc.startLat
    startLon := acc.startLon
    endLat := acc.endLat
    endLon := acc.endLon
    distance := acc.distance
    cumulativeDistance := acc.cumulativeDistance
    elevation := avgElevation
    gradient := (avgElevation - acc.elevationStart) / acc.distance
    bearing := jsMod (jsAtan2 acc.bearingY acc.bearingX * 180 / Real.pi + 360) 360 }

noncomputable def resetAcc (acc : SmoothAcc) : SmoothAcc :=
  let avgElevation := acc.elevationSum / acc.distance
  { distance := 0
    elevationStart := avgElevation
    elevationSum := 0
    bearingX := 0
    bearingY := 0
    startLat := acc.endLat
    startLon := acc.endLon
    endLat := 0
    endLon := 0
    cumulativeDistance := acc.cumulativeDistance }

/-- Body of the forEach loop of smoothSegments: accumulate the segment, and
flush either when the accumulated distance reaches the target length or on
the last input segment. -/
noncomputable def smoothGo (targetLength : ℝ) : SmoothAcc → List Segment → List Segment
  | _, [] => []
  | acc, seg :: rest =>
    let acc2 := accumulate acc seg
    if acc2.distance ≥ targetLength ∨ rest.isEmpty then
      flushAcc acc2 :: smoothGo targetLength (resetAcc acc2) rest
    else
      smoothGo targetLength acc2 rest

noncomputable def initAcc (segments : List Segment) : SmoothAcc :=
  { distance := 0
    elevationStart := segments.head?.elim 0 (·.elevation)
    elevationSum := 0
    bearingX := 0
    bearingY := 0
    startLat := segments.head?.elim 0 (·.startLat)
    startLon := segments.head?.elim 0 (·.startLon)
    endLat := 0
    endLon := 0
    cumulativeDistance := 0 }

noncomputable def smoothSegments (segments : List Segment) (targetLength : ℝ) : List Segment :=
  smoothGo targetLength (initAcc segments) segments

/-- Sum of the distance fields of a segment list. -/
noncomputable def totalDist (l : List Segment) : ℝ := (l.map (·.distance)).sum

-- Unfolding lemmas for the Newton iteration.

theorem speedIter_zero (power gradient headwind : ℝ) (p : BikeParams) (st : IterState) :
    speedIter power gradient headwind p 0 st = st := rfl

theorem speedIter_succ (power gradient headwind : ℝ) (p : BikeParams) (n : ℕ) (st : IterState) :
    speedIter power gradient headwind p (n + 1) st =
      (if |powerRequired st.speed gradient headwind p - power| < 0.1 then
        { st with resExit := true }
      else if |(powerRequired (st.speed + 0.1) gradient headwind p -
            powerRequired st.speed gradient headwind p) / 0.1| < 0.001 then st
      else
        speedIter power gradient headwind p n
          { speed := max 1 (min (st.speed -
              (powerRequired st.speed gradient headwind p - power) /
                ((powerRequired (st.speed + 0.1) gradient headwind p -
                  powerRequired st.speed gradient headwind p) / 0.1)) 30)
            clampHit := if max 1 (min (st.speed -
              (powerRequired st.speed gradient headwind p - power) /
                ((powerRequired (st.speed + 0.1) gradient headwind p -
                  powerRequired st.speed gradient headwind p) / 0.1)) 30) = st.speed -
              (powerRequired st.speed gradient headwind p - power) /
                ((powerRequired (st.speed + 0.1) gradient headwind p -
                  powerRequired st.speed gradient headwind p) / 0.1) then st.clampHit else true
            resExit := st.resExit }) := rfl

theorem speedIter_speed_nonneg (power gradient headwind : ℝ) (p : BikeParams) :
    ∀ (n : ℕ) (st : IterState), 0 ≤ st.speed →
      0 ≤ (speedIter power gradient headwind p n st).speed := by
  intro n
  induction n with
  | zero => intro st h; exact h
  | succ n ih =>
    intro st h
    rw [speedIter_succ]
    split_ifs with h1 h2 h3
    · exact h
    · exact h
    · exact ih _ (le_trans zero_le_one (le_max_left _ _))
    · exact ih _ (le_trans zero_le_one (le_max_left _ _))

theorem seedSpeed_nonneg (power : ℝ) (p : BikeParams) : 0 ≤ seedSpeed power p := by
  unfold seedSpeed
  rcases le_or_lt 0 (power / (0.5 * AIR_DENSITY * p.cda)) with hx0 | hx0
  · exact Real.rpow_nonneg hx0 _
  · rw [Real.rpow_def_of_neg hx0]
    have hc : Real.cos ((1:ℝ)/3 * Real.pi) = 1/2 := by
      rw [show (1:ℝ)/3 * Real.pi = Real.pi/3 by ring]
      exact Real.cos_pi_div_three
    rw [hc]
    positivity

theorem speedAtPower_nonneg (power gradient headwind : ℝ) (p : BikeParams) :
    0 ≤ speedAtPower power gradient headwind p := by
  unfold speedAtPower speedAtPowerRun
  exact speedIter_speed_nonneg power gradient headwind p 20 _ (seedSpeed_nonneg power p)

-- Evaluation of the JavaScript remainder on the ranges used by the wind code.

theorem jsTrunc_of_nonneg {x : ℝ} (h : 0 ≤ x) : jsTrunc x = (⌊x⌋ : ℝ) := if_pos h

theorem jsMod_small {x m : ℝ} (hm : 0 < m) (h0 : 0 ≤ x) (h1 : x < m) : jsMod x m = x := by
  unfold jsMod
  rw [jsTrunc_of_nonneg (div_nonneg h0 hm.le)]
  have hfl : ⌊x / m⌋ = 0 :=
    Int.floor_eq_zero_iff.mpr (Set.mem_Ico.mpr ⟨div_nonneg h0 hm.le, (div_lt_one hm).mpr h1⟩)
  rw [hfl]
  push_cast
  ring

theorem jsMod_shift {x m : ℝ} (hm : 0 < m) (h0 : m ≤ x) (h1 : x < 2 * m) :
    jsMod x m = x - m := by
  unfold jsMod
  rw [jsTrunc_of_nonneg (div_nonneg (le_trans hm.le h0) hm.le)]
  have hfl : ⌊x / m⌋ = 1 := by
    rw [Int.floor_eq_iff]
    constructor
    · push_cast
      exact (one_le_div hm).mpr h0
    · push_cast
      rw [div_lt_iff hm]
      linarith
  rw [hfl]
  push_cast
  ring

-- Sign behaviour of calculateHeadwind on compass inputs.

theorem calculateHeadwind_aligned (ws b : ℝ) (hb0 : 0 ≤ b) (hb : b < 360) :
    calculateHeadwind ws b b = ws := by
  simp only [calculateHeadwind]
  rcases lt_or_le b 180 with hcase | hcase
  · rw [jsMod_small (by norm_num) (by linarith) (by linarith)]
    rw [show (b + 180 - b) * Real.pi / 180 = Real.pi by ring, Real.cos_pi]
    ring
  · rw [jsMod_shift (by norm_num) (by linarith) (by linarith)]
    rw [show (b + 180 - 360 - b) * Real.pi / 180 = -Real.pi by ring, Real.cos_neg,
      Real.cos_pi]
    ring

theorem calculateHeadwind_opposite (ws b : ℝ) (hb0 : 0 ≤ b) (hb : b < 360) :
    calculateHeadwind ws (jsMod (b + 180) 360) b = -ws := by
  simp only [calculateHeadwind]
  rcases lt_or_le b 180 with hcase | hcase
  · have hin : jsMod (b + 180) 360 = b + 180 :=
      jsMod_small (by norm_num) (by linarith) (by linarith)
    rw [hin]
    have hout : jsMod (b + 180 + 180) 360 = b + 180 + 180 - 360 :=
      jsMod_shift (by norm_num) (by linarith) (by linarith)
    rw [hout, show (b + 180 + 180 - 360 - b) * Real.pi / 180 = 0 by ring, Real.cos_zero]
    ring
  · have hin : jsMod (b + 180) 360 = b + 180 - 360 :=
      jsMod_shift (by norm_num) (by linarith) (by linarith)
    rw [hin]
    have hout : jsMod (b + 180 - 360 + 180) 360 = b + 180 - 360 + 180 :=
      jsMod_small (by norm_num) (by linarith) (by linarith)
    rw [hout, show (b + 180 - 360 + 180 - b) * Real.pi / 180 = 0 by ring, Real.cos_zero]
    ring

theorem pass1Seg_headwind (p : Params) (seg : Segment) :
    (pass1Seg p seg).headwind =
      calculateHeadwind (p.windSpeed / 3.6) p.windDirection seg.bearing := rfl

/-- C2 counterexample: with wind speed 1 and windDirection equal to the travel
bearing (wind blowing from straight ahead, a true headwind), calculateHeadwind
returns the positive value 1, not a negative value as the claim states. -/
theorem c2_headwind_sign_counterexample :
    calculateHeadwind 1 0 0 = 1 ∧ 0 < calculateHeadwind 1 0 0 := by
  have h : calculateHeadwind 1 0 0 = 1 := calculateHeadwind_aligned 1 0 le_rfl (by norm_num)
  exact ⟨h, by rw [h]; norm_num⟩

/-- C2 (amended): the sign convention of calculateHeadwind is the opposite of
the claimed one. For every windSpeed greater than 0 and every travel bearing in
the compass range, wind blowing from straight ahead (windDirection equal to the
bearing) yields the positive value windSpeed, and wind from directly behind
(windDirection opposite the bearing) yields the negative value minus
windSpeed. -/
theorem calculateHeadwind_sign (ws b : ℝ) (hws : 0 < ws) (hb0 : 0 ≤ b) (hb : b < 360) :
    calculateHeadwind ws b b = ws ∧ 0 < calculateHeadwind ws b b ∧
    calculateHeadwind ws (jsMod (b + 180) 360) b = -ws ∧
    calculateHeadwind ws (jsMod (b + 180) 360) b < 0 := by
  have h1 := calculateHeadwind_aligned ws b hb0 hb
  have h2 := calculateHeadwind_opposite ws b hb0 hb
  refine ⟨h1, ?_, h2, ?_⟩
  · rw [h1]; exact hws
  · rw [h2]; linarith

theorem calculateHeadwind_sign_witness :
    (0:ℝ) < 3 ∧ (0:ℝ) ≤ 45 ∧ (45:ℝ) < 360 ∧
    (calculateHeadwind 3 45 45 = 3 ∧ 0 < calculateHeadwind 3 45 45 ∧
      calculateHeadwind 3 (jsMod (45 + 180) 360) 45 = -3 ∧
      calculateHeadwind 3 (jsMod (45 + 180) 360) 45 < 0) :=
  ⟨by norm_num, by norm_num, by norm_num,
    calculateHeadwind_sign 3 45 (by norm_num) (by norm_num) (by norm_num)⟩

/-- C3 counterexample: with params.windSpeed equal to 3.6 and wind aligned with
the travel bearing, the headwind recorded by the first pass of optimize is 1,
not 3.6: optimize divides params.windSpeed by 3.6 (a km/h to m/s conversion)
before calling the headwind helper, so the recorded magnitude is not
params.windSpeed. -/
theorem c3_wind_units_counterexample :
    (pass1Seg
        { ftp := 250, wprime := 20000, windSpeed := 3.6, windDirection := 0,
          totalMass := 80, cda := 0.3, crr := 0.004, targetIntensity := 80 }
        { startLat := 0, startLon := 0, endLat := 0, endLon := 0, distance := 100,
          cumulativeDistance := 100, elevation := 0, gradient := 0, bearing := 0 }).headwind
      = 1 ∧ ((1:ℝ) = |(1:ℝ)|) ∧ (1:ℝ) ≠ 3.6 := by
  refine ⟨?_, by norm_num, by norm_num⟩
  rw [pass1Seg_headwind]
  show calculateHeadwind ((3.6:ℝ) / 3.6) 0 0 = 1
  rw [show (3.6:ℝ) / 3.6 = 1 by norm_num]
  exact calculateHeadwind_aligned 1 0 le_rfl (by norm_num)

/-- C3 (amended): the first pass of optimize records as headwind the helper
applied to params.windSpeed divided by 3.6, treating params.windSpeed as a
km/h magnitude converted to m/s; for wind exactly aligned with the segment
bearing (windDirection equal to the bearing) or exactly against it
(windDirection the compass opposite of the bearing), the recorded magnitude
is params.windSpeed / 3.6, not params.windSpeed. -/
theorem pass1_headwind_conversion (p : Params) (seg : Segment)
    (hws : 0 ≤ p.windSpeed)
    (ha : p.windDirection = seg.bearing ∨ p.windDirection = jsMod (seg.bearing + 180) 360)
    (hb0 : 0 ≤ seg.bearing) (hb : seg.bearing < 360) :
    (pass1Seg p seg).headwind =
      calculateHeadwind (p.windSpeed / 3.6) p.windDirection seg.bearing ∧
    |(pass1Seg p seg).headwind| = p.windSpeed / 3.6 := by
  refine ⟨pass1Seg_headwind p seg, ?_⟩
  rw [pass1Seg_headwind]
  rcases ha with ha | ha
  · rw [ha, calculateHeadwind_aligned _ _ hb0 hb]
    exact abs_of_nonneg (div_nonneg hws (by norm_num))
  · rw [ha, calculateHeadwind_opposite _ _ hb0 hb, abs_neg]
    exact abs_of_nonneg (div_nonneg hws (by norm_num))

theorem pass1_headwind_conversion_witness :
    (0:ℝ) ≤ 7.2 ∧ (0:ℝ) ≤ 90 ∧ (90:ℝ) < 360 ∧
    |(pass1Seg
        { ftp := 250, wprime := 20000, windSpeed := 7.2, windDirection := 90,
          totalMass := 80, cda := 0.3, crr := 0.004, targetIntensity := 80 }
        { startLat := 0, startLon := 0, endLat := 0, endLon := 0, distance := 100,
          cumulativeDistance := 100, elevation := 0, gradient := 0, bearing := 90 }).headwind| =
      (7.2:ℝ) / 3.6 ∧
    |(pass1Seg
        { ftp := 250, wprime := 20000, windSpeed := 7.2, windDirection := 270,
          totalMass := 80, cda := 0.3, crr := 0.004, targetIntensity := 80 }
        { startLat := 0, startLon := 0, endLat := 0, endLon := 0, distance := 100,
          cumulativeDistance := 100, elevation := 0, gradient := 0, bearing := 90 }).headwind| =
      (7.2:ℝ) / 3.6 := by
  have hop : (270:ℝ) = jsMod ((90:ℝ) + 180) 360 := by
    rw [show (90:ℝ) + 180 = 270 by norm_num]
    exact (jsMod_small (by norm_num) (by norm_num) (by norm_num)).symm
  refine ⟨by norm_num, by norm_num, by norm_num, ?_, ?_⟩
  · exact (pass1_headwind_conversion _ _ (by norm_num) (Or.inl rfl)
      (by norm_num) (by norm_num)).2
  · exact (pass1_headwind_conversion _ _ (by norm_num) (Or.inr hop)
      (by norm_num) (by norm_num)).2

/-- C5 counterexample: for gradient 0, headwind value minus 15 and positive
params, powerRequired is not monotone in speed: at speed 5 it exceeds the
value at the larger speed 14 (where the raw total falls under the 50 W
floor). -/
theorem c5_monotone_counterexample :
    (0:ℝ) < 5 ∧ (5:ℝ) ≤ 14 ∧
    powerRequired 14 0 (-15) ⟨100, 0.3, 1/981⟩ < powerRequired 5 0 (-15) ⟨100, 0.3, 1/981⟩ := by
  refine ⟨by norm_num, by norm_num, ?_⟩
  have h14 : powerRequired 14 0 (-15) (⟨100, 0.3, 1/981⟩ : BikeParams) = 50 := by
    simp only [powerRequired, GRAVITY, AIR_DENSITY, DRIVETRAIN_LOSS, MIN_POWER,
      Real.arctan_zero, Real.cos_zero]
    rw [max_eq_left (by norm_num)]
  have h5 : (50:ℝ) < powerRequired 5 0 (-15) ⟨100, 0.3, 1/981⟩ := by
    simp only [powerRequired, GRAVITY, AIR_DENSITY, DRIVETRAIN_LOSS, MIN_POWER,
      Real.arctan_zero, Real.cos_zero]
    exact lt_of_lt_of_le (by norm_num) (le_max_right _ _)
  rw [h14]
  exact h5

/-- C5 (amended): powerRequired is monotone non-decreasing in speed for fixed
gradient at least 0 and positive params, provided the fixed headwind value is
also at least 0 (with a negative headwind value the air-speed term can fall as
ground speed rises, and monotonicity fails). -/
theorem powerRequired_mono (g hw : ℝ) (bp : BikeParams)
    (hm : 0 < bp.totalMass) (hc : 0 < bp.cda) (hr : 0 < bp.crr)
    (hg : 0 ≤ g) (hh : 0 ≤ hw) (v1 v2 : ℝ) (hv1 : 0 < v1) (hv : v1 ≤ v2) :
    powerRequired v1 g hw bp ≤ powerRequired v2 g hw bp := by
  have hcos : 0 ≤ Real.cos (Real.arctan g) :=
    Real.cos_nonneg_of_mem_Icc
      ⟨le_of_lt (Real.neg_pi_div_two_lt_arctan g), le_of_lt (Real.arctan_lt_pi_div_two g)⟩
  simp only [powerRequired, GRAVITY, AIR_DENSITY, DRIVETRAIN_LOSS, MIN_POWER]
  apply max_le_max (le_refl _)
  have t1 : (v1 + hw) ^ 2 * v1 ≤ (v2 + hw) ^ 2 * v2 := by
    have h1 : 0 ≤ v1 + hw := by linarith
    have h2 : v1 + hw ≤ v2 + hw := by linarith
    exact mul_le_mul (pow_le_pow_left h1 h2 2) hv hv1.le (sq_nonneg _)
  have a1 : 0.5 * 1.225 * bp.cda * ((v1 + hw) ^ 2 * v1) ≤
      0.5 * 1.225 * bp.cda * ((v2 + hw) ^ 2 * v2) :=
    mul_le_mul_of_nonneg_left t1 (mul_nonneg (by norm_num) hc.le)
  have t2 : g * v1 ≤ g * v2 := mul_le_mul_of_nonneg_left hv hg
  have a2 : bp.totalMass * 9.81 * (g * v1) ≤ bp.totalMass * 9.81 * (g * v2) :=
    mul_le_mul_of_nonneg_left t2 (mul_nonneg hm.le (by norm_num))
  have t3 : Real.cos (Real.arctan g) * v1 ≤ Real.cos (Real.arctan g) * v2 :=
    mul_le_mul_of_nonneg_left hv hcos
  have a3 : bp.crr * bp.totalMass * 9.81 * (Real.cos (Real.arctan g) * v1) ≤
      bp.crr * bp.totalMass * 9.81 * (Real.cos (Real.arctan g) * v2) :=
    mul_le_mul_of_nonneg_left t3 (mul_nonneg (mul_nonneg hr.le hm.le) (by norm_num))
  have key : 0.5 * 1.225 * bp.cda * (v1 + hw) ^ 2 * v1 + bp.totalMass * 9.81 * g * v1 +
      bp.crr * bp.totalMass * 9.81 * Real.cos (Real.arctan g) * v1 ≤
      0.5 * 1.225 * bp.cda * (v2 + hw) ^ 2 * v2 + bp.totalMass * 9.81 * g * v2 +
      bp.crr * bp.totalMass * 9.81 * Real.cos (Real.arctan g) * v2 := by
    nlinarith [a1, a2, a3]
  rw [div_eq_mul_inv, div_eq_mul_inv]
  exact mul_le_mul_of_nonneg_right key (by norm_num)

theorem powerRequired_mono_witness :
    (0:ℝ) < 80 ∧ (0:ℝ) < 0.3 ∧ (0:ℝ) < 0.004 ∧ (0:ℝ) ≤ 0.05 ∧ (0:ℝ) ≤ 1 ∧
    (0:ℝ) < 2 ∧ (2:ℝ) ≤ 3 ∧
    powerRequired 2 0.05 1 ⟨80, 0.3, 0.004⟩ ≤ powerRequired 3 0.05 1 ⟨80, 0.3, 0.004⟩ :=
  ⟨by norm_num, by norm_num, by norm_num, by norm_num, by norm_num, by norm_num, by norm_num,
    powerRequired_mono 0.05 1 ⟨80, 0.3, 0.004⟩ (by norm_num) (by norm_num) (by norm_num)
      (by norm_num) (by norm_num) 2 3 (by norm_num) (by norm_num)⟩

/-- C7 counterexample: at targetIntensity 135 the aggressiveness factor of the
first pass of optimize is 2, while the claimed clamp of (targetIntensity - 65)
divided by 35 to the interval from 0 to 1 gives 1; the code has no upper
clamp. -/
theorem c7_aggressiveness_counterexample :
    aggressiveness 135 = 2 ∧ min 1 (max 0 (((135:ℝ) - 65) / 35)) = 1 ∧ (2:ℝ) ≠ 1 := by
  refine ⟨?_, ?_, by norm_num⟩
  · simp only [aggressiveness]
    norm_num [max_def]
  · norm_num [max_def, min_def]

/-- C7 (amended): the aggressiveness factor equals Math.max of 0 and
(targetIntensity - 65) / 35: it is never less than 0, and it agrees with the
claimed clamp to the interval from 0 to 1 exactly when targetIntensity is at
most 100; above 100 it exceeds 1. -/
theorem aggressiveness_amended (ti : ℝ) :
    0 ≤ aggressiveness ti ∧
    (ti ≤ 100 → aggressiveness ti = min 1 (max 0 ((ti - 65) / 35))) := by
  constructor
  · simp only [aggressiveness]
    exact le_max_left _ _
  · intro h
    simp only [aggressiveness]
    have hle : max 0 ((ti - 65) / 35) ≤ 1 := by
      apply max_le (by norm_num)
      rw [div_le_one (by norm_num : (0:ℝ) < 35)]
      linarith
    exact (min_eq_right hle).symm

theorem aggressiveness_amended_witness :
    0 ≤ aggressiveness 80 ∧ aggressiveness 80 = min 1 (max 0 (((80:ℝ) - 65) / 35)) :=
  ⟨(aggressiveness_amended 80).1, (aggressiveness_amended 80).2 (by norm_num)⟩

-- Facts about a single step of the second pass.

theorem pass2Step_recorded (p : Params) (wb : ℝ) (seg : OptSegment) :
    (pass2Step p wb seg).2.wBalance = (pass2Step p wb seg).1 := by
  simp only [pass2Step]
  split_ifs <;> rfl

theorem pass2Step_bounds (p : Params) (wb : ℝ) (seg : OptSegment)
    (hd : 0 ≤ seg.distance) (hw : 0 < p.wprime)
    (h1 : p.wprime * 0.15 ≤ wb) (h2 : wb ≤ p.wprime) :
    p.wprime * 0.15 ≤ (pass2Step p wb seg).1 ∧ (pass2Step p wb seg).1 ≤ p.wprime := by
  have hsp : 0 ≤ speedAtPower seg.optimizedPower seg.gradient seg.headwind (bikeOf p) :=
    speedAtPower_nonneg _ _ _ _
  have ht : 0 ≤ seg.distance /
      speedAtPower seg.optimizedPower seg.gradient seg.headwind (bikeOf p) :=
    div_nonneg hd hsp
  simp only [pass2Step]
  split_ifs with hp hcheck
  · exact ⟨h1, h2⟩
  · have hcost : 0 ≤ (seg.optimizedPower - p.ftp) *
        (seg.distance / speedAtPower seg.optimizedPower seg.gradient seg.headwind (bikeOf p)) :=
      mul_nonneg (by linarith) ht
    refine ⟨?_, by linarith⟩
    have := not_lt.mp hcheck
    linarith
  · have hrec : 0 ≤ (p.ftp - seg.optimizedPower) *
        (seg.distance / speedAtPower seg.optimizedPower seg.gradient seg.headwind (bikeOf p)) *
        0.30 := by
      have hple := not_lt.mp hp
      exact mul_nonneg (mul_nonneg (by linarith) ht) (by norm_num)
    refine ⟨le_min (by linarith) (by linarith), min_le_left _ _⟩

theorem pass2_cons (p : Params) (wb minW : ℝ) (seg : OptSegment) (rest : List OptSegment) :
    pass2 p (wb, minW) (seg :: rest) =
      ((pass2 p ((pass2Step p wb seg).1, min minW (pass2Step p wb seg).1) rest).1,
        (pass2Step p wb seg).2 ::
          (pass2 p ((pass2Step p wb seg).1, min minW (pass2Step p wb seg).1) rest).2) := rfl

theorem pass2_invariant (p : Params) (hw : 0 < p.wprime) :
    ∀ (l : List OptSegment) (wb minW : ℝ),
      (∀ s ∈ l, 0 ≤ s.distance) →
      p.wprime * 0.15 ≤ wb → wb ≤ p.wprime →
      p.wprime * 0.15 ≤ minW → minW ≤ p.wprime →
      (p.wprime * 0.15 ≤ (pass2 p (wb, minW) l).1.1 ∧ (pass2 p (wb, minW) l).1.1 ≤ p.wprime) ∧
      (p.wprime * 0.15 ≤ (pass2 p (wb, minW) l).1.2 ∧ (pass2 p (wb, minW) l).1.2 ≤ p.wprime) ∧
      (∀ s ∈ (pass2 p (wb, minW) l).2,
        p.wprime * 0.15 ≤ s.wBalance ∧ s.wBalance ≤ p.wprime) := by
  intro l
  induction l with
  | nil =>
    intro wb minW _ h1 h2 h3 h4
    simp only [pass2]
    exact ⟨⟨h1, h2⟩, ⟨h3, h4⟩, by simp⟩
  | cons seg rest ih =>
    intro wb minW hdist h1 h2 h3 h4
    have hd : 0 ≤ seg.distance := hdist seg (List.mem_cons_self _ _)
    have hrest : ∀ s ∈ rest, 0 ≤ s.distance := fun s hs => hdist s (List.mem_cons_of_mem _ hs)
    have hb := pass2Step_bounds p wb seg hd hw h1 h2
    have hrec := pass2Step_recorded p wb seg
    have hmin1 : p.wprime * 0.15 ≤ min minW (pass2Step p wb seg).1 := le_min h3 hb.1
    have hmin2 : min minW (pass2Step p wb seg).1 ≤ p.wprime := le_trans (min_le_left _ _) h4
    have ihx := ih (pass2Step p wb seg).1 (min minW (pass2Step p wb seg).1)
      hrest hb.1 hb.2 hmin1 hmin2
    rw [pass2_cons]
    refine ⟨ihx.1, ihx.2.1, ?_⟩
    intro s hs
    rcases List.mem_cons.mp hs with hs | hs
    · subst hs
      rw [hrec]
      exact hb
    · exact ihx.2.2 s hs

/-- C1: throughout the second pass of optimize, with wprime positive and every
segment distance positive, the carried wBalance, every recorded per-segment
wBalance field, and the carried minWBalance all stay inside the closed
interval from wprime times 0.15 up to wprime. -/
theorem c1_pass2_reserve_invariant (segs : List Segment) (p : Params)
    (hw : 0 < p.wprime) (hd : ∀ s ∈ segs, 0 < s.distance) :
    (p.wprime * 0.15 ≤ (pass2 p (p.wprime, p.wprime) (segs.map (pass1Seg p))).1.1 ∧
      (pass2 p (p.wprime, p.wprime) (segs.map (pass1Seg p))).1.1 ≤ p.wprime) ∧
    (p.wprime * 0.15 ≤ (pass2 p (p.wprime, p.wprime) (segs.map (pass1Seg p))).1.2 ∧
      (pass2 p (p.wprime, p.wprime) (segs.map (pass1Seg p))).1.2 ≤ p.wprime) ∧
    (∀ s ∈ (pass2 p (p.wprime, p.wprime) (segs.map (pass1Seg p))).2,
      p.wprime * 0.15 ≤ s.wBalance ∧ s.wBalance ≤ p.wprime) := by
  have hd2 : ∀ s ∈ segs.map (pass1Seg p), 0 ≤ s.distance := by
    intro s hs
    rcases List.mem_map.mp hs with ⟨t, ht, rfl⟩
    have hsame : (pass1Seg p t).distance = t.distance := rfl
    rw [hsame]
    exact (hd t ht).le
  exact pass2_invariant p hw _ p.wprime p.wprime hd2 (by linarith) le_rfl (by linarith) le_rfl

noncomputable def paramsA : Params :=
  { ftp := 250, wprime := 20000, windSpeed := 0, windDirection := 0,
    totalMass := 80, cda := 0.3, crr := 0.004, targetIntensity := 90 }

def segA : Segment :=
  { startLat := 0, startLon := 0, endLat := 0, endLon := 0, distance := 100,
    cumulativeDistance := 100, elevation := 0, gradient := 0.05, bearing := 0 }

theorem c1_pass2_reserve_invariant_witness :
    0 < paramsA.wprime ∧ (∀ s ∈ [segA], 0 < s.distance) ∧
    ((paramsA.wprime * 0.15 ≤
        (pass2 paramsA (paramsA.wprime, paramsA.wprime) ([segA].map (pass1Seg paramsA))).1.1 ∧
      (pass2 paramsA (paramsA.wprime, paramsA.wprime) ([segA].map (pass1Seg paramsA))).1.1 ≤
        paramsA.wprime) ∧
    (paramsA.wprime * 0.15 ≤
        (pass2 paramsA (paramsA.wprime, paramsA.wprime) ([segA].map (pass1Seg paramsA))).1.2 ∧
      (pass2 paramsA (paramsA.wprime, paramsA.wprime) ([segA].map (pass1Seg paramsA))).1.2 ≤
        paramsA.wprime) ∧
    (∀ s ∈ (pass2 paramsA (paramsA.wprime, paramsA.wprime) ([segA].map (pass1Seg paramsA))).2,
      paramsA.wprime * 0.15 ≤ s.wBalance ∧ s.wBalance ≤ paramsA.wprime)) := by
  have hw : 0 < paramsA.wprime := by norm_num [paramsA]
  have hd : ∀ s ∈ [segA], 0 < s.distance := by
    intro s hs
    rw [List.mem_singleton] at hs
    subst hs
    norm_num [segA]
  exact ⟨hw, hd, c1_pass2_reserve_invariant [segA] paramsA hw hd⟩

/-- C10: whenever the reserve check of the second pass fires on a segment (its
power exceeds ftp and depleting would cross the floor of wprime times 0.15),
the power is overridden down to basePower, the wBalance carried to the next
segment equals the balance entering the segment (no depletion and no
recovery), and the wBalance recorded on the segment equals that same entering
balance. -/
theorem c10_override_frame (p : Params) (wb : ℝ) (seg : OptSegment)
    (hp : seg.optimizedPower > p.ftp)
    (hc : wb - (seg.optimizedPower - p.ftp) *
        (seg.distance / speedAtPower seg.optimizedPower seg.gradient seg.headwind (bikeOf p)) <
      p.wprime * 0.15) :
    (pass2Step p wb seg).1 = wb ∧
    (pass2Step p wb seg).2.wBalance = wb ∧
    (pass2Step p wb seg).2.optimizedPower = basePowerOf p := by
  simp only [pass2Step]
  rw [if_pos hp, if_pos hc]
  exact ⟨rfl, rfl, rfl⟩

noncomputable def paramsB : Params :=
  { ftp := 250, wprime := 1000, windSpeed := 0, windDirection := 0,
    totalMass := 100, cda := 0.3, crr := 1/981, targetIntensity := 90 }

noncomputable def segB : OptSegment :=
  { startLat := 0, startLon := 0, endLat := 0, endLon := 0, distance := 200,
    cumulativeDistance := 200, elevation := 0, gradient := -0.5, bearing := 0,
    headwind := 0, optimizedPower := 300, wBalance := 0, speed := 0, time := 0 }

theorem c10_override_frame_witness :
    segB.optimizedPower > paramsB.ftp ∧
    ((100:ℝ) - (segB.optimizedPower - paramsB.ftp) *
        (segB.distance /
          speedAtPower segB.optimizedPower segB.gradient segB.headwind (bikeOf paramsB)) <
      paramsB.wprime * 0.15) ∧
    ((pass2Step paramsB 100 segB).1 = 100 ∧
      (pass2Step paramsB 100 segB).2.wBalance = 100 ∧
      (pass2Step paramsB 100 segB).2.optimizedPower = basePowerOf paramsB) := by
  have hp : segB.optimizedPower > paramsB.ftp := by norm_num [segB, paramsB]
  have hsp : 0 ≤ speedAtPower segB.optimizedPower segB.gradient segB.headwind (bikeOf paramsB) :=
    speedAtPower_nonneg _ _ _ _
  have ht : 0 ≤ segB.distance /
      speedAtPower segB.optimizedPower segB.gradient segB.headwind (bikeOf paramsB) :=
    div_nonneg (by norm_num [segB]) hsp
  have hcost : 0 ≤ (segB.optimizedPower - paramsB.ftp) *
      (segB.distance /
        speedAtPower segB.optimizedPower segB.gradient segB.headwind (bikeOf paramsB)) := by
    apply mul_nonneg _ ht
    norm_num [segB, paramsB]
  have hc : (100:ℝ) - (segB.optimizedPower - paramsB.ftp) *
      (segB.distance /
        speedAtPower segB.optimizedPower segB.gradient segB.headwind (bikeOf paramsB)) <
      paramsB.wprime * 0.15 := by
    have hx : paramsB.wprime * 0.15 = 150 := by norm_num [paramsB]
    linarith
  exact ⟨hp, hc, c10_override_frame paramsB 100 segB hp hc⟩

-- Clamp bounds for the Newton iteration.

theorem speedIter_speed_mem (power gradient headwind : ℝ) (p : BikeParams) :
    ∀ (n : ℕ) (st : IterState), 1 ≤ st.speed → st.speed ≤ 30 →
      1 ≤ (speedIter power gradient headwind p n st).speed ∧
      (speedIter power gradient headwind p n st).speed ≤ 30 := by
  intro n
  induction n with
  | zero => intro st ha hb; exact ⟨ha, hb⟩
  | succ n ih =>
    intro st ha hb
    rw [speedIter_succ]
    split_ifs with h1 h2 h3
    · exact ⟨ha, hb⟩
    · exact ⟨ha, hb⟩
    · exact ih _ (le_max_left _ _) (max_le (by norm_num) (min_le_right _ _))
    · exact ih _ (le_max_left _ _) (max_le (by norm_num) (min_le_right _ _))

/-- C6 (amended): speedAtPower never raises and, whenever the initial
cube-root guess already lies inside the closed interval from 1 to 30, the
returned speed lies in that interval as well; when the guess lies outside the
interval an early exit can return it unclamped (see the counterexample at
power 0). -/
theorem speedAtPower_bounds (power gradient headwind : ℝ) (p : BikeParams)
    (h1 : 1 ≤ seedSpeed power p) (h2 : seedSpeed power p ≤ 30) :
    1 ≤ speedAtPower power gradient headwind p ∧
    speedAtPower power gradient headwind p ≤ 30 := by
  unfold speedAtPower speedAtPowerRun
  exact speedIter_speed_mem power gradient headwind p 20 ⟨seedSpeed power p, false, false⟩ h1 h2

theorem rpow_one_third_cube (s : ℝ) (hs : 0 ≤ s) : ((s ^ (3:ℕ) : ℝ)) ^ ((1:ℝ)/3) = s := by
  rw [← Real.rpow_natCast s 3, ← Real.rpow_mul hs]
  rw [show ((3:ℕ):ℝ) * ((1:ℝ)/3) = 1 by norm_num, Real.rpow_one]

theorem speedIter_succ_fields (power gradient headwind : ℝ) (p : BikeParams) (n : ℕ)
    (s : ℝ) (ch re : Bool) :
    speedIter power gradient headwind p (n + 1) ⟨s, ch, re⟩ =
      (if |powerRequired s gradient headwind p - power| < 0.1 then ⟨s, ch, true⟩
      else if |(powerRequired (s + 0.1) gradient headwind p -
            powerRequired s gradient headwind p) / 0.1| < 0.001 then ⟨s, ch, re⟩
      else
        speedIter power gradient headwind p n
          ⟨max 1 (min (s - (powerRequired s gradient headwind p - power) /
              ((powerRequired (s + 0.1) gradient headwind p -
                powerRequired s gradient headwind p) / 0.1)) 30),
            if max 1 (min (s - (powerRequired s gradient headwind p - power) /
              ((powerRequired (s + 0.1) gradient headwind p -
                powerRequired s gradient headwind p) / 0.1)) 30) = s -
              (powerRequired s gradient headwind p - power) /
                ((powerRequired (s + 0.1) gradient headwind p -
                  powerRequired s gradient headwind p) / 0.1) then ch else true,
            re⟩) := rfl

/-- C6 counterexample: at power 0 (with cda positive) the initial cube-root
guess is 0, the very first iteration exits on a zero numerical derivative (the
50 W floor makes both probe evaluations equal), and speedAtPower returns the
unclamped 0, outside the claimed interval from 1 to 30. -/
theorem c6_clamp_counterexample :
    (0:ℝ) < 0.3 ∧ speedAtPower 0 0 0 ⟨100, 0.3, 1/981⟩ = 0 ∧
    ¬ (1 ≤ speedAtPower 0 0 0 ⟨100, 0.3, 1/981⟩) := by
  have hseed : seedSpeed 0 (⟨100, 0.3, 1/981⟩ : BikeParams) = 0 := by
    unfold seedSpeed
    rw [show (0:ℝ) / (0.5 * AIR_DENSITY * (⟨100, 0.3, 1/981⟩ : BikeParams).cda) = 0 by
      norm_num [AIR_DENSITY]]
    exact Real.zero_rpow (by norm_num)
  have hp0 : powerRequired 0 0 0 (⟨100, 0.3, 1/981⟩ : BikeParams) = 50 := by
    simp only [powerRequired, GRAVITY, AIR_DENSITY, DRIVETRAIN_LOSS, MIN_POWER,
      Real.arctan_zero, Real.cos_zero]
    rw [max_eq_left (by norm_num)]
  have hp1 : powerRequired ((0:ℝ) + 0.1) 0 0 (⟨100, 0.3, 1/981⟩ : BikeParams) = 50 := by
    simp only [powerRequired, GRAVITY, AIR_DENSITY, DRIVETRAIN_LOSS, MIN_POWER,
      Real.arctan_zero, Real.cos_zero]
    rw [max_eq_left (by norm_num)]
  have hrun : speedAtPowerRun 0 0 0 ⟨100, 0.3, 1/981⟩ = ⟨0, false, false⟩ := by
    unfold speedAtPowerRun
    rw [hseed, show (20:ℕ) = 19 + 1 from rfl, speedIter_succ_fields, hp0, hp1]
    have hc1 : ¬ (|(50:ℝ) - 0| < 0.1) := by
      rw [show |(50:ℝ) - 0| = 50 by rw [abs_of_nonneg] <;> norm_num]
      norm_num
    have hc2 : |((50:ℝ) - 50) / 0.1| < 0.001 := by
      rw [show ((50:ℝ) - 50) / 0.1 = 0 by norm_num, abs_zero]
      norm_num
    rw [if_neg hc1, if_pos hc2]
  have hsp : speedAtPower 0 0 0 ⟨100, 0.3, 1/981⟩ = 0 := by
    unfold speedAtPower
    rw [hrun]
  exact ⟨by norm_num, hsp, by rw [hsp]; norm_num⟩

theorem speedAtPower_bounds_witness :
    1 ≤ seedSpeed 68.6 ⟨100, 16/49, 1/981⟩ ∧ seedSpeed 68.6 ⟨100, 16/49, 1/981⟩ ≤ 30 ∧
    (1 ≤ speedAtPower 68.6 0 0 ⟨100, 16/49, 1/981⟩ ∧
      speedAtPower 68.6 0 0 ⟨100, 16/49, 1/981⟩ ≤ 30) := by
  have hseed : seedSpeed 68.6 (⟨100, 16/49, 1/981⟩ : BikeParams) = 7 := by
    unfold seedSpeed
    rw [show (68.6:ℝ) / (0.5 * AIR_DENSITY * (⟨100, 16/49, 1/981⟩ : BikeParams).cda) =
        7 ^ (3:ℕ) by norm_num [AIR_DENSITY]]
    exact rpow_one_third_cube 7 (by norm_num)
  refine ⟨by rw [hseed]; norm_num, by rw [hseed]; norm_num, ?_⟩
  exact speedAtPower_bounds 68.6 0 0 _ (by rw [hseed]; norm_num) (by rw [hseed]; norm_num)

-- Distance bookkeeping of the smoothing pass.

theorem accumulate_distance (acc : SmoothAcc) (seg : Segment) :
    (accumulate acc seg).distance = acc.distance + seg.distance := rfl

theorem flushAcc_distance (acc : SmoothAcc) : (flushAcc acc).distance = acc.distance := rfl

theorem resetAcc_distance (acc : SmoothAcc) : (resetAcc acc).distance = 0 := rfl

theorem smoothGo_nil (t : ℝ) (acc : SmoothAcc) : smoothGo t acc [] = [] := rfl

theorem smoothGo_cons (t : ℝ) (acc : SmoothAcc) (seg : Segment) (rest : List Segment) :
    smoothGo t acc (seg :: rest) =
      (if (accumulate acc seg).distance ≥ t ∨ rest.isEmpty then
        flushAcc (accumulate acc seg) :: smoothGo t (resetAcc (accumulate acc seg)) rest
      else smoothGo t (accumulate acc seg) rest) := rfl

theorem totalDist_nil : totalDist [] = 0 := rfl

theorem totalDist_cons (s : Segment) (l : List Segment) :
    totalDist (s :: l) = s.distance + totalDist l := rfl

theorem smoothGo_totalDist (t : ℝ) :
    ∀ (segs : List Segment) (acc : SmoothAcc), segs ≠ [] →
      totalDist (smoothGo t acc segs) = acc.distance + totalDist segs := by
  intro segs
  induction segs with
  | nil => intro acc h; exact absurd rfl h
  | cons seg rest ih =>
    intro acc _
    rw [smoothGo_cons]
    rcases eq_or_ne rest [] with hr | hr
    · subst hr
      rw [if_pos (show (accumulate acc seg).distance ≥ t ∨ ([] : List Segment).isEmpty = true
          from Or.inr rfl),
        smoothGo_nil, totalDist_cons, totalDist_nil, totalDist_cons,
        totalDist_nil, flushAcc_distance, accumulate_distance]
      ring
    · by_cases hcond : (accumulate acc seg).distance ≥ t
      · rw [if_pos (Or.inl hcond), totalDist_cons, flushAcc_distance, ih _ hr,
          resetAcc_distance, accumulate_distance, totalDist_cons]
        ring
      · have hne : ¬ ((accumulate acc seg).distance ≥ t ∨ rest.isEmpty = true) := by
          rw [not_or]
          refine ⟨hcond, fun hemp => hr ?_⟩
          exact List.isEmpty_iff.mp hemp
        rw [if_neg hne, ih _ hr, accumulate_distance, totalDist_cons]
        ring

/-- C9: coalescing is distance-conservative: for every raw segment sequence
and every positive targetLength, the sum of the distance fields of the
segments returned by smoothSegments equals the sum of the distance fields of
the input segments, exactly, in real arithmetic. -/
theorem c9_smooth_distance_conservation (segs : List Segment) (targetLength : ℝ)
    (ht : 0 < targetLength) :
    totalDist (smoothSegments segs targetLength) = totalDist segs := by
  rcases eq_or_ne segs [] with h | h
  · subst h
    rfl
  · unfold smoothSegments
    rw [smoothGo_totalDist targetLength segs (initAcc segs) h,
      show (initAcc segs).distance = 0 from rfl]
    ring

theorem c9_smooth_distance_conservation_witness :
    (0:ℝ) < 100 ∧ totalDist (smoothSegments [segA] 100) = totalDist [segA] :=
  ⟨by norm_num, c9_smooth_distance_conservation [segA] 100 (by norm_num)⟩

/-- C8: contrary to the claim, optimize performs no empty-input rejection: on
the empty segment sequence it returns an OptimizationResult (with an empty
segment list and totalTime 0, so the metric divisions are 0 divided by 0)
instead of failing with an InputTooShort error before computation. The
emptiness guard in the source lives only in the browser event handlers, not
in the core entry point. -/
theorem c8_optimize_empty_returns (p : Params) :
    (optimize [] p).segments = [] ∧ (optimize [] p).metrics.totalTime = 0 :=
  ⟨rfl, rfl⟩

theorem speedIter_resExit (power gradient headwind : ℝ) (p : BikeParams) :
    ∀ (n : ℕ) (st : IterState), st.resExit = false →
      (speedIter power gradient headwind p n st).resExit = true →
      |powerRequired (speedIter power gradient headwind p n st).speed gradient headwind p -
        power| < 0.1 := by
  intro n
  induction n with
  | zero =>
    intro st h0 h1
    rw [speedIter_zero] at h1
    rw [h0] at h1
    exact absurd h1 (by simp)
  | succ n ih =>
    intro st h0 h1
    rw [speedIter_succ] at h1 ⊢
    split_ifs at h1 ⊢ with hc1 hc2 hc3
    · exact hc1
    · rw [h0] at h1
      exact absurd h1 (by simp)
    · exact ih _ h0 h1
    · exact ih _ h0 h1

/-- C4 (amended): whenever the Newton run of speedAtPower stops through the
power-residual test, the round trip powerRequired of speedAtPower is within
0.1 W, hence within 1 W, of the target power. When the run instead stops on a
small numerical derivative, for example on the 50 W floor plateau, the round
trip can be off by more than 1 W even though the 1 to 30 clamp is never
active (see the counterexample). -/
theorem c4_roundtrip_residual (power gradient headwind : ℝ) (p : BikeParams)
    (h : (speedAtPowerRun power gradient headwind p).resExit = true) :
    |powerRequired (speedAtPower power gradient headwind p) gradient headwind p - power| ≤ 1 := by
  unfold speedAtPowerRun at h
  unfold speedAtPower speedAtPowerRun
  have hx := speedIter_resExit power gradient headwind p 20 ⟨seedSpeed power p, false, false⟩
    rfl h
  linarith

theorem c4_roundtrip_residual_witness :
    (speedAtPowerRun 50 (-0.25) 0 ⟨1000, 500/49, 0.004⟩).resExit = true ∧
    |powerRequired (speedAtPower 50 (-0.25) 0 ⟨1000, 500/49, 0.004⟩) (-0.25) 0
        ⟨1000, 500/49, 0.004⟩ - 50| ≤ 1 := by
  have hseed : seedSpeed 50 (⟨1000, 500/49, 0.004⟩ : BikeParams) = 2 := by
    unfold seedSpeed
    rw [show (50:ℝ) / (0.5 * AIR_DENSITY * (⟨1000, 500/49, 0.004⟩ : BikeParams).cda) =
        2 ^ (3:ℕ) by norm_num [AIR_DENSITY]]
    exact rpow_one_third_cube 2 (by norm_num)
  have hcos : Real.cos (Real.arctan (-0.25)) ≤ 1 := Real.cos_le_one _
  have hp2 : powerRequired 2 (-0.25) 0 (⟨1000, 500/49, 0.004⟩ : BikeParams) = 50 := by
    simp only [powerRequired, GRAVITY, AIR_DENSITY, DRIVETRAIN_LOSS, MIN_POWER]
    rw [max_eq_left]
    rw [div_le_iff (by norm_num)]
    nlinarith [hcos]
  have hres : ¬ ((50:ℝ) ≤ |(50:ℝ) - 50|) := by
    rw [show (50:ℝ) - 50 = 0 by ring, abs_zero]
    norm_num
  have hc1 : |(50:ℝ) - 50| < 0.1 := by
    rw [show (50:ℝ) - 50 = 0 by ring, abs_zero]
    norm_num
  have hrun : speedAtPowerRun 50 (-0.25) 0 ⟨1000, 500/49, 0.004⟩ = ⟨2, false, true⟩ := by
    unfold speedAtPowerRun
    rw [hseed, show (20:ℕ) = 19 + 1 from rfl, speedIter_succ_fields, hp2, if_pos hc1]
  constructor
  · rw [hrun]
  · apply c4_roundtrip_residual
    rw [hrun]

/-- C4 counterexample: at power 52, gradient 0, headwind value minus 12 and
positive params (mass 100, cda 832/1225, crr 1/981), the cube-root guess is 5,
one Newton update moves the estimate to 75790/6333 (about 11.97, so the 1 to
30 clamp never alters anything), and the next iteration exits on a zero
numerical derivative because both probe evaluations sit on the 50 W floor;
the round trip powerRequired of speedAtPower returns 50, which is 2 W away
from the requested 52, violating the claimed 1 W bound on an input where the
clamp is not active. -/
theorem c4_roundtrip_counterexample :
    (50:ℝ) ≤ 52 ∧ (-0.25:ℝ) ≤ 0 ∧ (0:ℝ) ≤ 0.25 ∧
    (-15:ℝ) ≤ -12 ∧ (-12:ℝ) ≤ 15 ∧
    (0:ℝ) < 100 ∧ (0:ℝ) < 832/1225 ∧ (0:ℝ) < 1/981 ∧
    (speedAtPowerRun 52 0 (-12) ⟨100, 832/1225, 1/981⟩).clampHit = false ∧
    1 < |powerRequired (speedAtPower 52 0 (-12) ⟨100, 832/1225, 1/981⟩) 0 (-12)
        ⟨100, 832/1225, 1/981⟩ - 52| := by
  have hseed : seedSpeed 52 (⟨100, 832/1225, 1/981⟩ : BikeParams) = 5 := by
    unfold seedSpeed
    rw [show (52:ℝ) / (0.5 * AIR_DENSITY * (⟨100, 832/1225, 1/981⟩ : BikeParams).cda) =
        5 ^ (3:ℕ) by norm_num [AIR_DENSITY]]
    exact rpow_one_third_cube 5 (by norm_num)
  have hA : powerRequired 5 0 (-12) (⟨100, 832/1225, 1/981⟩ : BikeParams) = 10692/97 := by
    simp only [powerRequired, GRAVITY, AIR_DENSITY, DRIVETRAIN_LOSS, MIN_POWER,
      Real.arctan_zero, Real.cos_zero]
    rw [max_eq_right (by norm_num)]
    norm_num
  have hB : powerRequired ((5:ℝ) + 0.1) 0 (-12) (⟨100, 832/1225, 1/981⟩ : BikeParams) =
      6631836/60625 := by
    simp only [powerRequired, GRAVITY, AIR_DENSITY, DRIVETRAIN_LOSS, MIN_POWER,
      Real.arctan_zero, Real.cos_zero]
    rw [max_eq_right (by norm_num)]
    norm_num
  have hI : powerRequired (75790/6333) 0 (-12) (⟨100, 832/1225, 1/981⟩ : BikeParams) = 50 := by
    simp only [powerRequired, GRAVITY, AIR_DENSITY, DRIVETRAIN_LOSS, MIN_POWER,
      Real.arctan_zero, Real.cos_zero]
    rw [max_eq_left (by norm_num)]
  have hJ : powerRequired ((75790/6333:ℝ) + 0.1) 0 (-12)
      (⟨100, 832/1225, 1/981⟩ : BikeParams) = 50 := by
    simp only [powerRequired, GRAVITY, AIR_DENSITY, DRIVETRAIN_LOSS, MIN_POWER,
      Real.arctan_zero, Real.cos_zero]
    rw [max_eq_left (by norm_num)]
  have hc1 : ¬ (|(10692/97:ℝ) - 52| < 0.1) := by
    rw [abs_of_nonneg (by norm_num : (0:ℝ) ≤ (10692/97:ℝ) - 52)]
    norm_num
  have hc2 : ¬ (|((6631836/60625:ℝ) - 10692/97) / 0.1| < 0.001) := by
    rw [abs_of_nonpos (by norm_num : ((6631836/60625:ℝ) - 10692/97) / 0.1 ≤ 0)]
    norm_num
  have hs1 : (5:ℝ) - (10692/97 - 52) / ((6631836/60625 - 10692/97) / 0.1) = 75790/6333 := by
    norm_num
  have hclamp : max (1:ℝ) (min ((75790:ℝ)/6333) 30) = (75790:ℝ)/6333 := by
    rw [min_eq_left (by norm_num), max_eq_right (by norm_num)]
  have hc3 : ¬ (|(50:ℝ) - 52| < 0.1) := by
    rw [abs_of_nonpos (by norm_num : (50:ℝ) - 52 ≤ 0)]
    norm_num
  have hc4 : |((50:ℝ) - 50) / 0.1| < 0.001 := by
    rw [show ((50:ℝ) - 50) / 0.1 = 0 by norm_num, abs_zero]
    norm_num
  have hrun : speedAtPowerRun 52 0 (-12) ⟨100, 832/1225, 1/981⟩ =
      ⟨75790/6333, false, false⟩ := by
    unfold speedAtPowerRun
    rw [hseed, show (20:ℕ) = 19 + 1 from rfl, speedIter_succ_fields, hA, hB,
      if_neg hc1, if_neg hc2, hs1, hclamp, if_pos rfl,
      show (19:ℕ) = 18 + 1 from rfl, speedIter_succ_fields, hI, hJ,
      if_neg hc3, if_pos hc4]
  have hsp : speedAtPower 52 0 (-12) ⟨100, 832/1225, 1/981⟩ = 75790/6333 := by
    unfold speedAtPower
    rw [hrun]
  refine ⟨by norm_num, by norm_num, by norm_num, by norm_num, by norm_num,
    by norm_num, by norm_num, by norm_num, by rw [hrun], ?_⟩
  rw [hsp, hI, abs_of_nonpos (by norm_num : (50:ℝ) - 52 ≤ 0)]
  norm_num
